import Mathlib

/-
  Verification development for the telemetry publisher in kos/src/telemetry.rs.

  The Rust module is shallowly embedded: u64 counters become Nat with an
  explicit modulus 2^64 where hardware wrap-around matters; the tokio mutexes
  around the frame-number and video-timestamp counters become a LockCell record
  carrying the stored value together with a flag saying whether another task
  holds the lock at the instant of the call (try_lock fails exactly then); the
  AtomicU64 inference-step counter is a plain Nat field (atomic ops always
  succeed); the global TELEMETRY slot is a GlobalState record with the Option
  contents of the slot and a held-flag for its mutex; MQTT publishing is a
  caller-supplied transport function, and serde serialization of the caller
  payload is an Except argument (a serializable payload reduces to a JSON
  value; a failing Serialize impl is the error case).
-/

set_option autoImplicit false

namespace KosTelemetry

/-- Modulus of the u64 machine integers used by the Rust counters. -/
def u64Mod : Nat := 2 ^ 64

/-- Model of rumqttc MqttOptions: client id, broker host, broker port and the
keep-alive interval in seconds (set by set_keep_alive). -/
structure MqttOptions where
  client_id : String
  host : String
  port : Nat
  keep_alive_secs : Nat
deriving Repr, DecidableEq

/-- Embedding of MqttOptions::new: stores id, host and port; rumqttc sets a
default keep-alive of 60 seconds. Construction is infallible (the host string
is stored as given; no parsing or validation happens here). -/
def MqttOptions.new (client_id host : String) (port : Nat) : MqttOptions :=
  { client_id := client_id, host := host, port := port, keep_alive_secs := 60 }

/-- Embedding of MqttOptions::set_keep_alive (seconds). -/
def MqttOptions.set_keep_alive (o : MqttOptions) (secs : Nat) : MqttOptions :=
  { o with keep_alive_secs := secs }

/-- Model of rumqttc AsyncClient: identified by the options it was built from
and the request-channel capacity passed to AsyncClient::new. -/
structure AsyncClient where
  options : MqttOptions
  cap : Nat
deriving Repr, DecidableEq

/-- Model of the rumqttc event loop handed back by AsyncClient::new; the
telemetry module only drains it in a background task. -/
structure EventLoop where
  options : MqttOptions
deriving Repr, DecidableEq

/-- Embedding of AsyncClient::new: builds the client/event-loop pair from the
options. It is a total function: client construction cannot fail. -/
def AsyncClient.new (o : MqttOptions) (cap : Nat) : AsyncClient × EventLoop :=
  (⟨o, cap⟩, ⟨o⟩)

/-- A tokio Mutex<u64> cell as seen by a single call: the stored value and
whether some other task holds the lock at the instant of the call (this is
exactly when try_lock returns Err). -/
structure LockCell where
  value : Nat
  locked : Bool
deriving Repr, DecidableEq

/-- Embedding of the Telemetry struct (client, robot_id and the three
counters). -/
structure Telemetry where
  client : AsyncClient
  robot_id : String
  frame_number : LockCell
  video_timestamp : LockCell
  inference_step : Nat
deriving Repr, DecidableEq

/-- The global TELEMETRY slot: its Option contents and whether some other task
holds its mutex at the instant of the call. -/
structure GlobalState where
  slot : Option Telemetry
  slotLocked : Bool
deriving Repr, DecidableEq

/-- Model of str::to_lowercase, character by character (agrees with Rust on
ASCII, which is all the comparison with "false" can distinguish). -/
def toLowercase (s : String) : String :=
  String.mk (s.data.map Char.toLower)

/-- Embedding of the TELEMETRY_ENABLED lazy static: the ENABLE_TELEMETRY
environment variable (None when absent) is lowercased and compared with
"false"; absence means enabled. -/
def TELEMETRY_ENABLED (env : Option String) : Bool :=
  match env with
  | some v => toLowercase v != "false"
  | none => true

/-- JSON values, for the payloads serde_json serializes. -/
inductive Json where
  | null : Json
  | bool : Bool → Json
  | num : Nat → Json
  | str : String → Json
  | arr : List Json → Json
  | obj : List (String × Json) → Json

/-- Lowercase hex digit, as serde_json uses in \u00XX escapes. -/
def hexDigit (n : Nat) : String :=
  String.singleton (if n < 10 then Char.ofNat (48 + n) else Char.ofNat (87 + n))

/-- Escape of one character inside a JSON string, following serde_json:
quote, backslash, the short control escapes, and \u00XX for the remaining
control characters. -/
def escapeJsonChar (c : Char) : String :=
  if c = '"' then "\\\""
  else if c = '\\' then "\\\\"
  else if c = '\n' then "\\n"
  else if c = '\r' then "\\r"
  else if c = '\t' then "\\t"
  else if c.toNat = 8 then "\\b"
  else if c.toNat = 12 then "\\f"
  else if c.toNat < 32 then "\\u00" ++ hexDigit (c.toNat / 16) ++ hexDigit (c.toNat % 16)
  else String.singleton c

/-- Escape of a whole JSON string body. -/
def escapeJson (s : String) : String :=
  s.data.foldl (fun acc c => acc ++ escapeJsonChar c) ""

mutual

/-- Compact rendering of a JSON value, as serde_json::to_string emits it. -/
def Json.render : Json → String
  | .null => "null"
  | .bool true => "true"
  | .bool false => "false"
  | .num n => Nat.repr n
  | .str s => "\"" ++ escapeJson s ++ "\""
  | .arr xs => "[" ++ Json.renderArr xs ++ "]"
  | .obj kvs => "\x7b" ++ Json.renderObj kvs ++ "\x7d"

/-- Comma-separated rendering of array elements. -/
def Json.renderArr : List Json → String
  | [] => ""
  | [j] => Json.render j
  | j :: js => Json.render j ++ "," ++ Json.renderArr js

/-- Comma-separated rendering of object members. -/
def Json.renderObj : List (String × Json) → String
  | [] => ""
  | [(k, v)] => "\"" ++ escapeJson k ++ "\":" ++ Json.render v
  | (k, v) :: kvs => "\"" ++ escapeJson k ++ "\":" ++ Json.render v ++ "," ++ Json.renderObj kvs

end

/-- Embedding of the TelemetryPayload envelope that publish serializes: a JSON
object with exactly the fields frame_number, video_timestamp, inference_step
and data, in declaration order (serde derives field order). -/
def telemetryPayloadJson (fn vt istep : Nat) (data : Json) : Json :=
  .obj [("frame_number", .num fn), ("video_timestamp", .num vt),
        ("inference_step", .num istep), ("data", data)]

/-- Quality of service levels of the transport. -/
inductive QoS where
  | atMostOnce : QoS
  | atLeastOnce : QoS
  | exactlyOnce : QoS
deriving Repr, DecidableEq

/-- A message handed to the transport client's publish capability. -/
structure SentMsg where
  topic : String
  qos : QoS
  retain : Bool
  payload : String
deriving Repr, DecidableEq

/-- Failure cases surfaced by publish: serde serialization failure or
transport-level publish failure. -/
inductive PublishError where
  | serialization : String → PublishError
  | transport : String → PublishError
deriving Repr, DecidableEq

/-- Embedding of Telemetry::initialize (named init because of naming limits):
builds MqttOptions "kos-" ++ robot_id / host / port, sets keep-alive to 5
seconds, constructs the client with capacity 10 (the spawned event-loop drain
task has no effect on this state), builds a Telemetry with all counters zero,
and stores it in the global slot, replacing any prior instance. The Rust body
contains no fallible step, so the call always returns Ok(()). -/
def Telemetry.init (robot_id mqtt_host : String) (mqtt_port : Nat)
    (st : GlobalState) : GlobalState × Except String Unit :=
  let mqtt_options := (MqttOptions.new ("kos-" ++ robot_id) mqtt_host mqtt_port).set_keep_alive 5
  let pair := AsyncClient.new mqtt_options 10
  let telemetry : Telemetry :=
    { client := pair.1
      robot_id := robot_id
      frame_number := ⟨0, false⟩
      video_timestamp := ⟨0, false⟩
      inference_step := 0 }
  ({ st with slot := some telemetry }, Except.ok ())

/-- Embedding of Telemetry::get: when TELEMETRY_ENABLED is false it returns
None before ever touching the TELEMETRY mutex; otherwise it acquires the mutex
(blocking until free) and clones the slot. The Bool records whether the lock
was touched. -/
def Telemetry.get (enabled : Bool) (st : GlobalState) : Option Telemetry × Bool :=
  if !enabled then (none, false) else (st.slot, true)

/-- Embedding of Telemetry::try_get: try_lock on the TELEMETRY mutex; if some
other task holds it, returns None immediately, else clones the slot. It does
not consult TELEMETRY_ENABLED. -/
def Telemetry.try_get (st : GlobalState) : Option Telemetry :=
  if st.slotLocked then none else st.slot

/-- Embedding of Telemetry::update_frame_number: try_lock; on contention the
update is silently dropped. -/
def Telemetry.update_frame_number (t : Telemetry) (n : Nat) : Telemetry :=
  if t.frame_number.locked then t
  else { t with frame_number := { t.frame_number with value := n } }

/-- Embedding of Telemetry::update_video_timestamp: try_lock; on contention
the update is silently dropped. -/
def Telemetry.update_video_timestamp (t : Telemetry) (n : Nat) : Telemetry :=
  if t.video_timestamp.locked then t
  else { t with video_timestamp := { t.video_timestamp with value := n } }

/-- Embedding of Telemetry::get_frame_number: try_lock; on contention returns
0 (unwrap_or(0)). -/
def Telemetry.get_frame_number (t : Telemetry) : Nat :=
  if t.frame_number.locked then 0 else t.frame_number.value

/-- Embedding of Telemetry::get_video_timestamp: try_lock; on contention
returns 0 (unwrap_or(0)). -/
def Telemetry.get_video_timestamp (t : Telemetry) : Nat :=
  if t.video_timestamp.locked then 0 else t.video_timestamp.value

/-- Embedding of Telemetry::increment_frame_number: try_lock; on contention
the increment is silently dropped. -/
def Telemetry.increment_frame_number (t : Telemetry) : Telemetry :=
  if t.frame_number.locked then t
  else { t with frame_number := { t.frame_number with value := (t.frame_number.value + 1) % u64Mod } }

/-- Embedding of Telemetry::update_inference_step: AtomicU64 store, always
succeeds. -/
def Telemetry.update_inference_step (t : Telemetry) (n : Nat) : Telemetry :=
  { t with inference_step := n }

/-- Embedding of Telemetry::increment_inference_step: AtomicU64 fetch_add(1),
which wraps around on overflow per its documentation. -/
def Telemetry.increment_inference_step (t : Telemetry) : Telemetry :=
  { t with inference_step := (t.inference_step + 1) % u64Mod }

/-- Embedding of Telemetry::get_inference_step: AtomicU64 load, always
succeeds. -/
def Telemetry.get_inference_step (t : Telemetry) : Nat :=
  t.inference_step

/-- N sequential applications of increment_inference_step (the serialization
order of N atomic fetch_add calls). -/
def Telemetry.incrementN (t : Telemetry) : Nat → Telemetry
  | 0 => t
  | n + 1 => Telemetry.increment_inference_step (Telemetry.incrementN t n)

/-- Embedding of Telemetry::publish: snapshots the three counters through
their best-effort/atomic readers, wraps the caller payload in the
TelemetryPayload envelope, serializes it (serData is the serde result of
reducing the caller payload to a JSON value; its error is serde's error, and
nothing is sent in that case), computes the topic "robots/" ++ robot_id ++ "/"
++ topic, and hands one message with QoS at-least-once and retain false to the
transport, surfacing a transport error to the caller. Returns the (unchanged)
instance, the list of messages handed to the transport, and the result. -/
def Telemetry.publish (t : Telemetry) (topic : String) (serData : Except String Json)
    (transport : SentMsg → Except String Unit) :
    Telemetry × List SentMsg × Except PublishError Unit :=
  let fn := Telemetry.get_frame_number t
  let vt := Telemetry.get_video_timestamp t
  let istep := Telemetry.get_inference_step t
  match serData with
  | .error e => (t, [], .error (.serialization e))
  | .ok d =>
    let body := (telemetryPayloadJson fn vt istep d).render
    let full_topic := "robots/" ++ t.robot_id ++ "/" ++ topic
    let msg : SentMsg := ⟨full_topic, QoS.atLeastOnce, false, body⟩
    match transport msg with
    | .ok _ => (t, [msg], .ok ())
    | .error e => (t, [msg], .error (.transport e))

/-- Concrete client used by the concrete instances below. -/
def witClient : AsyncClient :=
  (AsyncClient.new ((MqttOptions.new "kos-r1" "localhost" 1883).set_keep_alive 5) 10).1

/-- A concrete telemetry instance whose counter locks are free. -/
def witFree : Telemetry :=
  { client := witClient
    robot_id := "r1"
    frame_number := ⟨5, false⟩
    video_timestamp := ⟨1000, false⟩
    inference_step := 3 }

/-- A concrete telemetry instance whose counter locks are held by another
task. -/
def witLocked : Telemetry :=
  { client := witClient
    robot_id := "r1"
    frame_number := ⟨5, true⟩
    video_timestamp := ⟨1000, true⟩
    inference_step := 3 }

/-- A concrete telemetry instance whose inference step sits at u64::MAX. -/
def witMax : Telemetry :=
  { witFree with inference_step := u64Mod - 1 }

/-- A concrete global state holding witFree, with the slot lock free. -/
def witGlobalFree : GlobalState := ⟨some witFree, false⟩

/-- Helper: the inference step after N sequential fetch_add(1) calls is the
starting value plus N, modulo 2^64. -/
theorem incrementN_inference_step (t : Telemetry) (ht : t.inference_step < u64Mod) :
    ∀ N : Nat, (Telemetry.incrementN t N).inference_step = (t.inference_step + N) % u64Mod
  | 0 => by
    simp [Telemetry.incrementN, Nat.mod_eq_of_lt ht]
  | N + 1 => by
    have ih := incrementN_inference_step t ht N
    simp only [Telemetry.incrementN, Telemetry.increment_inference_step, ih, Nat.mod_add_mod]
    rw [Nat.add_assoc]

/-- C8: the enable toggle is true when the setting is absent, and false
exactly when the lowercased value equals "false". -/
theorem C8_enable_toggle :
    TELEMETRY_ENABLED none = true
    ∧ (∀ v : String, TELEMETRY_ENABLED (some v) = false ↔ toLowercase v = "false") := by
  refine ⟨rfl, fun v => ?_⟩
  simp [TELEMETRY_ENABLED]

/-- Witness for C8 at the concrete values "FALSE" and absent. -/
theorem C8_enable_toggle_witness :
    TELEMETRY_ENABLED (some "FALSE") = false ∧ TELEMETRY_ENABLED none = true :=
  ⟨(C8_enable_toggle.2 "FALSE").mpr (by decide), C8_enable_toggle.1⟩

/-- C3: with the toggle set to "false", get returns none for every global
state (any history of prior initialize calls) without touching the slot lock;
try_get ignores the gate: with the slot lock free it returns the slot contents
(the initialized instance, or none if never initialized), and none when the
lock is held. -/
theorem C3_disabled_gate (st : GlobalState) :
    Telemetry.get (TELEMETRY_ENABLED (some "false")) st = (none, false)
    ∧ (st.slotLocked = false → Telemetry.try_get st = st.slot)
    ∧ (st.slotLocked = true → Telemetry.try_get st = none) := by
  refine ⟨rfl, fun h => ?_, fun h => ?_⟩ <;> simp [Telemetry.try_get, h]

/-- Witness for C3 at a concrete initialized, unlocked global state. -/
theorem C3_disabled_gate_witness :
    Telemetry.get (TELEMETRY_ENABLED (some "false")) witGlobalFree = (none, false)
    ∧ Telemetry.try_get witGlobalFree = some witFree :=
  ⟨(C3_disabled_gate witGlobalFree).1, (C3_disabled_gate witGlobalFree).2.1 rfl⟩

/-- C7: with the lock free, updating the frame number or video timestamp
stores the value and the getter returns it; with the lock held, the update is
a silent no-op (instance unchanged) and the getter returns 0. -/
theorem C7_video_counters (t : Telemetry) (n v : Nat) :
    (t.frame_number.locked = false →
      Telemetry.get_frame_number (Telemetry.update_frame_number t n) = n)
    ∧ (t.video_timestamp.locked = false →
      Telemetry.get_video_timestamp (Telemetry.update_video_timestamp t v) = v)
    ∧ (t.frame_number.locked = true →
      Telemetry.update_frame_number t n = t ∧ Telemetry.get_frame_number t = 0)
    ∧ (t.video_timestamp.locked = true →
      Telemetry.update_video_timestamp t v = t ∧ Telemetry.get_video_timestamp t = 0) := by
  refine ⟨fun h => ?_, fun h => ?_, fun h => ⟨?_, ?_⟩, fun h => ⟨?_, ?_⟩⟩ <;>
    simp [Telemetry.update_frame_number, Telemetry.update_video_timestamp,
      Telemetry.get_frame_number, Telemetry.get_video_timestamp, h]

/-- Witness for C7 at concrete unlocked and locked instances. -/
theorem C7_video_counters_witness :
    Telemetry.get_frame_number (Telemetry.update_frame_number witFree 42) = 42
    ∧ Telemetry.get_video_timestamp (Telemetry.update_video_timestamp witFree 99) = 99
    ∧ Telemetry.update_frame_number witLocked 42 = witLocked
    ∧ Telemetry.get_frame_number witLocked = 0 :=
  ⟨(C7_video_counters witFree 42 99).1 rfl,
   (C7_video_counters witFree 42 99).2.1 rfl,
   ((C7_video_counters witLocked 42 99).2.2.1 rfl).1,
   ((C7_video_counters witLocked 42 99).2.2.1 rfl).2⟩

/-- C6: inference-step operations never fail or drop: an update followed by a
read returns the stored value, and N increments from any starting value leave
the counter at the starting value plus N (in u64 arithmetic, so modulo 2^64;
exactly the sum whenever it fits in a u64). -/
theorem C6_inference_step_exact (t : Telemetry) (n : Nat) (_hn : n < u64Mod) (N : Nat)
    (ht : t.inference_step < u64Mod) :
    Telemetry.get_inference_step (Telemetry.update_inference_step t n) = n
    ∧ Telemetry.get_inference_step (Telemetry.incrementN t N) = (t.inference_step + N) % u64Mod
    ∧ (t.inference_step + N < u64Mod →
        Telemetry.get_inference_step (Telemetry.incrementN t N) = t.inference_step + N) := by
  have h2 := incrementN_inference_step t ht N
  exact ⟨rfl, h2, fun hlt => h2.trans (Nat.mod_eq_of_lt hlt)⟩

/-- Witness for C6 at a concrete instance with inference step 3, storing 7 and
then incrementing twice from 3. -/
theorem C6_inference_step_exact_witness :
    Telemetry.get_inference_step (Telemetry.update_inference_step witFree 7) = 7
    ∧ Telemetry.get_inference_step (Telemetry.incrementN witFree 2) = 5 := by
  have h := C6_inference_step_exact witFree 7 (by decide) 2 (by decide)
  exact ⟨h.1, h.2.2 (by decide)⟩

/-- C10: fetch_add wraps: from u64::MAX, one increment makes the read return
exactly 0. -/
theorem C10_increment_wraps (t : Telemetry) (h : t.inference_step = u64Mod - 1) :
    Telemetry.get_inference_step (Telemetry.increment_inference_step t) = 0 := by
  have h1 : u64Mod - 1 + 1 = u64Mod := Nat.sub_add_cancel (by norm_num [u64Mod])
  show (t.inference_step + 1) % u64Mod = 0
  rw [h, h1, Nat.mod_self]

/-- Witness for C10 at a concrete instance holding u64::MAX. -/
theorem C10_increment_wraps_witness :
    Telemetry.get_inference_step (Telemetry.increment_inference_step witMax) = 0 :=
  C10_increment_wraps witMax rfl

/-- C9: every init call succeeds and installs an instance whose robot
identifier is the argument and whose three counters are all zero. -/
theorem C9_fresh_instance (rid host : String) (port : Nat) (st : GlobalState) :
    (Telemetry.init rid host port st).2 = Except.ok ()
    ∧ ∃ t : Telemetry, ((Telemetry.init rid host port st).1).slot = some t
        ∧ t.robot_id = rid ∧ t.frame_number.value = 0 ∧ t.video_timestamp.value = 0
        ∧ t.inference_step = 0 :=
  ⟨rfl, ⟨_, rfl, rfl, rfl, rfl, rfl⟩⟩

/-- C5: after two init calls with different robot identifiers, the single
slot holds exactly one instance, its robot identifier is the second one and
not the first, and get (with the toggle enabled) returns exactly that
instance. -/
theorem C5_last_writer_wins (st : GlobalState) (r1 r2 h1 h2 : String) (p1 p2 : Nat)
    (hne : r1 ≠ r2) :
    ∃ t : Telemetry,
      ((Telemetry.init r2 h2 p2 (Telemetry.init r1 h1 p1 st).1).1).slot = some t
      ∧ t.robot_id = r2 ∧ t.robot_id ≠ r1
      ∧ Telemetry.get true ((Telemetry.init r2 h2 p2 (Telemetry.init r1 h1 p1 st).1).1)
          = (some t, true) :=
  ⟨_, rfl, rfl, fun hc => hne hc.symm, rfl⟩

/-- Witness for C5 at concrete identifiers "r1" and "r2". -/
theorem C5_last_writer_wins_witness :
    ∃ t : Telemetry,
      ((Telemetry.init "r2" "h" 1 (Telemetry.init "r1" "h" 1 ⟨none, false⟩).1).1).slot = some t
      ∧ t.robot_id = "r2" ∧ t.robot_id ≠ "r1"
      ∧ Telemetry.get true ((Telemetry.init "r2" "h" 1 (Telemetry.init "r1" "h" 1 ⟨none, false⟩).1).1)
          = (some t, true) :=
  C5_last_writer_wins ⟨none, false⟩ "r1" "r2" "h" "h" 1 1 (by decide)

/-- C2 counterexample: the claim asserts that init fails on a malformed host;
in the code the transport client is constructed unconditionally and the body
has no fallible step, so init on a malformed host returns Ok. -/
theorem C2_init_counterexample :
    (Telemetry.init "r1" "not a host ://" 1883 ⟨none, false⟩).2 = Except.ok () := rfl

/-- C2 amended: init succeeds for every input (transport-client construction
is infallible; a malformed host can only surface later in the background event
loop), installing exactly the one client built from the given options, with no
retry. -/
theorem C2_init_infallible (rid host : String) (port : Nat) (st : GlobalState) :
    (Telemetry.init rid host port st).2 = Except.ok ()
    ∧ ∃ t : Telemetry, ((Telemetry.init rid host port st).1).slot = some t
        ∧ t.client = (AsyncClient.new ((MqttOptions.new ("kos-" ++ rid) host port).set_keep_alive 5) 10).1 :=
  ⟨rfl, ⟨_, rfl, rfl⟩⟩

/-- Concrete instance used by the C1 example: robot "r1", counters
(5, 1000, 3) with the locks free. -/
def pubExample : Telemetry := witFree

/-- C1: publish hands the transport exactly one message, whose topic is
"robots/" ++ robot_id ++ "/" ++ topic and whose body is the rendering of a
JSON object with exactly the fields frame_number, video_timestamp,
inference_step (the snapshotted counters) and data (the caller payload); at
robot "r1", counters (5, 1000, 3) and payload obj a 1 on topic "joints" the
message is topic "robots/r1/joints" with the exact body of the claim. -/
theorem C1_publish_envelope (t : Telemetry) (topic : String) (d : Json)
    (transport : SentMsg → Except String Unit) :
    (Telemetry.publish t topic (Except.ok d) transport).2.1 =
      [⟨"robots/" ++ t.robot_id ++ "/" ++ topic, QoS.atLeastOnce, false,
        (telemetryPayloadJson (Telemetry.get_frame_number t) (Telemetry.get_video_timestamp t)
          (Telemetry.get_inference_step t) d).render⟩]
    ∧ (Telemetry.publish pubExample "joints" (Except.ok (Json.obj [("a", Json.num 1)]))
        (fun _ => Except.ok ())).2.1 =
      [⟨"robots/r1/joints", QoS.atLeastOnce, false,
        "\x7b\"frame_number\":5,\"video_timestamp\":1000,\"inference_step\":3,\"data\":\x7b\"a\":1\x7d\x7d"⟩]
    ∧ (Telemetry.publish pubExample "joints" (Except.ok (Json.obj [("a", Json.num 1)]))
        (fun _ => Except.ok ())).2.2 = Except.ok () := by
  refine ⟨?_, by decide, rfl⟩
  unfold Telemetry.publish
  dsimp only
  split <;> rfl

/-- C4: publish leaves all three counters (indeed the whole instance)
unchanged, whether it returns success, a serialization failure or a transport
failure. -/
theorem C4_publish_preserves_counters (t : Telemetry) (topic : String)
    (serData : Except String Json) (transport : SentMsg → Except String Unit) :
    (Telemetry.publish t topic serData transport).1.frame_number = t.frame_number
    ∧ (Telemetry.publish t topic serData transport).1.video_timestamp = t.video_timestamp
    ∧ (Telemetry.publish t topic serData transport).1.inference_step = t.inference_step := by
  have h : (Telemetry.publish t topic serData transport).1 = t := by
    unfold Telemetry.publish
    cases serData with
    | error e => rfl
    | ok d => dsimp only; split <;> rfl
  rw [h]
  exact ⟨rfl, rfl, rfl⟩

end KosTelemetry
